import Mathlib

/-!
Shallow embedding of `src/tmux.rs` (dmux's tmux provisioning core).

External tmux invocations are modelled by an explicit oracle (`Env`) whose
responses may depend on the history of calls made so far, and every embedded
operation returns the list of external calls (`Ev`) it emits, alongside its
result.  Each Lean function mirrors one Rust function of the source; an
operation receives the call history accumulated before it starts and returns
only the events it freshly emits, so callers thread the history by appending.
-/

set_option maxHeartbeats 1600000

/-- One external tmux invocation, as issued by the binding layer. -/
inductive Ev
  | listSessions
  | listWindows (session : String)
  | listPanes (targetStr : String)
  | newSession (name : String)
  | newWindow (session name cwd : String)
  | splitWindow (targetPane cwd : String)
  | sendKeys (targetPane : String) (keys : List String)
  | killWindow (targetStr : String)
  | attachSession (targetStr : String)
  | switchClient (targetStr : String)
deriving DecidableEq, Repr

/-- Raw pane record as returned by `Panes::get` (index already unwrapped). -/
structure PaneRec where
  index : Int
deriving DecidableEq, Repr

/-- Raw window record as returned by `Windows::get` (`name`/`panes` unwrapped). -/
structure WindowRec where
  name : String
  panes : Int
deriving DecidableEq, Repr

/-- Raw session record as returned by `Sessions::get` (`name` unwrapped). -/
structure SessionRec where
  name : String
deriving DecidableEq, Repr

/-- Oracle for the external tmux process.  Each response may depend on the
full history of calls issued so far (the `List Ev` argument), which models a
tool whose state changes as the program drives it. -/
structure Env where
  inTmux : Bool
  sessionsList : List Ev → List SessionRec
  windowsList : List Ev → String → List WindowRec
  panesList : List Ev → String → List PaneRec
  newSessionOk : List Ev → String → Bool
  newWindowOk : List Ev → String → String → String → Bool
  splitOk : List Ev → String → String → Bool
  sendKeysOk : List Ev → String → List String → Bool
  killOk : List Ev → String → Bool
  attachOk : List Ev → String → Bool
  switchOk : List Ev → String → Bool

/-- The set matched by the Rust regex `\s` (Unicode `White_Space`). -/
def isRegexWhitespace (c : Char) : Bool :=
  c.toNat == 0x09 || c.toNat == 0x0A || c.toNat == 0x0B || c.toNat == 0x0C ||
  c.toNat == 0x0D || c.toNat == 0x20 || c.toNat == 0x85 || c.toNat == 0xA0 ||
  c.toNat == 0x1680 ||
  (decide (0x2000 ≤ c.toNat) && decide (c.toNat ≤ 0x200A)) ||
  c.toNat == 0x2028 || c.toNat == 0x2029 || c.toNat == 0x202F ||
  c.toNat == 0x205F || c.toNat == 0x3000

/-- Per-character action of `Regex::new(r"[\.\s]").replace_all(string, "-")`. -/
def cleanChar (c : Char) : Char :=
  if c == '.' || isRegexWhitespace c then '-' else c

/-- Rust `clean_for_target`: replace every `.` or whitespace character by `-`. -/
def clean_for_target (s : String) : String :=
  String.mk (s.data.map cleanChar)

/-- Rust `target`: builds the `session:window.pane` target string, sanitizing the
session and window components. -/
def target (session_name window_name : String) (pane : Int) : String :=
  clean_for_target session_name ++ ":" ++ clean_for_target window_name ++ "." ++ toString pane

/-- Alias for the free function `target`; method bodies inside the `Window`
and `Session` namespaces use it because the plain name would resolve to the
method being defined there. -/
def targetOf (session_name window_name : String) (pane : Int) : String :=
  target session_name window_name pane

structure Pane where
  session_name : String
  window_name : String
  index : Int
deriving DecidableEq, Repr

structure Window where
  panes : List Pane
  session_name : String
  number_of_panes : Int
  name : String
deriving DecidableEq, Repr

structure Session where
  windows : List Window
  name : String
deriving DecidableEq, Repr

structure Tmux where
  sessions : List Session
deriving DecidableEq, Repr

structure Layout where
  window_count : Int
  layout_string : String
deriving DecidableEq, Repr

structure WorkSpace where
  session_name : String
  window_name : String
  dir : String
  layout : Layout
  commands : List String
deriving DecidableEq, Repr

/-- Rust `in_tmux`: the TMUX environment indicator, read from the oracle. -/
def in_tmux (env : Env) : Bool := env.inTmux

/-- Rust `Pane::from_interface`. -/
def Pane.from_interface (rec : PaneRec) (session_name window_name : String) : Pane :=
  { index := rec.index, session_name := session_name, window_name := window_name }

/-- Rust `Pane::from_interface_list`. -/
def Pane.from_interface_list (recs : List PaneRec) (session_name window_name : String) :
    List Pane :=
  recs.map (fun p => Pane.from_interface p session_name window_name)

/-- Rust `Tmux::send_keys` (associated function). -/
def Tmux.send_keys (session_name window_name : String) (pane : Int) (keys : List String)
    (env : Env) (tr : List Ev) : Except String Unit × List Ev :=
  let t := target session_name window_name pane
  ((if env.sendKeysOk tr t keys then Except.ok () else Except.error "send keys failed"),
   [Ev.sendKeys t keys])

/-- Rust `Pane::send_keys`. -/
def Pane.send_keys (p : Pane) (keys : List String) (env : Env) (tr : List Ev) :
    Except String Unit × List Ev :=
  Tmux.send_keys p.session_name p.window_name p.index keys env tr

/-- Rust `Window::send_keys`: always targets pane 0 of the window. -/
def Window.send_keys (w : Window) (keys : List String) (env : Env) (tr : List Ev) :
    Except String Unit × List Ev :=
  Tmux.send_keys w.session_name w.name 0 keys env tr

/-- Rust `Window::target`. -/
def Window.target (w : Window) (pane : Int) : String :=
  targetOf w.session_name w.name pane

/-- Rust `Window::reload_panes`: re-queries the pane list and replaces only `panes`. -/
def Window.reload_panes (w : Window) (env : Env) (tr : List Ev) : Window × List Ev :=
  let t := targetOf w.session_name w.name 0
  let recs := env.panesList tr t
  ({ w with panes := Pane.from_interface_list recs w.session_name w.name },
   [Ev.listPanes t])

/-- Rust `Window::split_window`: split against pane 0, then reload panes
unconditionally, then report the split result. -/
def Window.split_window (w : Window) (dir : String) (env : Env) (tr : List Ev) :
    (Window × Except String Unit) × List Ev :=
  let t := w.target 0
  let ok := env.splitOk tr t dir
  let res := w.reload_panes env (tr ++ [Ev.splitWindow t dir])
  ((res.1, if ok then Except.ok () else Except.error "split failed"),
   Ev.splitWindow t dir :: res.2)

/-- The `for _x in self.number_of_panes..layout.window_count` loop of
`Window::setup_layout`, with the `?` early return on a failed split. -/
def Window.split_loop (w : Window) (dir : String) (env : Env) (tr : List Ev) :
    Nat → (Window × Except String Unit) × List Ev
  | 0 => ((w, Except.ok ()), [])
  | Nat.succ n =>
    match w.split_window dir env tr with
    | ((w2, Except.error e), ev1) => ((w2, Except.error e), ev1)
    | ((w2, Except.ok _), ev1) =>
      let res := Window.split_loop w2 dir env (tr ++ ev1) n
      (res.1, ev1 ++ res.2)

/-- Rust `Window::get_pane`: first pane whose index equals the argument. -/
def Window.get_pane (w : Window) (pane : Int) : Option Pane :=
  w.panes.find? (fun p => p.index == pane)

/-- Rust `Window::setup_layout`: reload panes, grow the pane count by splitting,
build the `select-layout` command string, reload panes again, and finally send
the command plus Enter as keystrokes into pane 0. -/
def Window.setup_layout (w : Window) (layout : Layout) (dir : String) (env : Env)
    (tr : List Ev) : (Window × Except String Unit) × List Ev :=
  let r0 := w.reload_panes env tr
  let w1 := r0.1
  let ev0 := r0.2
  let n := if w1.number_of_panes < layout.window_count
           then (layout.window_count - w1.number_of_panes).toNat else 0
  match Window.split_loop w1 dir env (tr ++ ev0) n with
  | ((w2, Except.error e), ev1) => ((w2, Except.error e), ev0 ++ ev1)
  | ((w2, Except.ok _), ev1) =>
    let tmux_command :=
      "tmux select-layout -t " ++ w2.target 0 ++ " \"" ++ layout.layout_string ++ "\""
    let r2 := w2.reload_panes env (tr ++ ev0 ++ ev1)
    let r3 := r2.1.send_keys [tmux_command, "Enter"] env (tr ++ ev0 ++ ev1 ++ r2.2)
    ((r2.1, r3.1), ev0 ++ ev1 ++ r2.2 ++ r3.2)

/-- Rust `Window::attach`: switch-client when inside tmux, attach-session otherwise,
both aimed at this window's pane-0 target. -/
def Window.attach (w : Window) (env : Env) (tr : List Ev) :
    Except String Unit × List Ev :=
  let t := w.target 0
  if in_tmux env then
    ((if env.switchOk tr t then Except.ok () else Except.error "switch failed"),
     [Ev.switchClient t])
  else
    ((if env.attachOk tr t then Except.ok () else Except.error "attach failed"),
     [Ev.attachSession t])

/-- The `for (pane, command) in commands.iter().enumerate()` loop of
`Window::initial_command`; `pane` is the running index cast to the pane index. -/
def Window.initial_command_go (w : Window) (env : Env) :
    List String → Nat → List Ev → Except String Unit × List Ev
  | [], _, _ => (Except.ok (), [])
  | command :: rest, pane, tr =>
    match w.get_pane (Int.ofNat pane) with
    | none => Window.initial_command_go w env rest (pane + 1) tr
    | some p =>
      match p.send_keys [command, "Enter"] env tr with
      | (Except.error e, ev1) => (Except.error e, ev1)
      | (Except.ok _, ev1) =>
        let res := Window.initial_command_go w env rest (pane + 1) (tr ++ ev1)
        (res.1, ev1 ++ res.2)

/-- Rust `Window::initial_command`. -/
def Window.initial_command (w : Window) (commands : List String) (env : Env)
    (tr : List Ev) : Except String Unit × List Ev :=
  Window.initial_command_go w env commands 0 tr

/-- Rust `Window::from_interface`: note that the stored window `name` is the raw
name reported by the tool, not sanitized, and that the pane query targets the
raw window name. -/
def Window.from_interface (win : WindowRec) (session_name : String) (env : Env)
    (tr : List Ev) : Window × List Ev :=
  let recs := env.panesList tr win.name
  ({ panes := Pane.from_interface_list recs session_name win.name,
     session_name := session_name,
     number_of_panes := win.panes,
     name := win.name },
   [Ev.listPanes win.name])

/-- Sequential effectful map underlying `windows.into_iter().map(..).collect()`. -/
def Window.from_interface_fold (session_name : String) (env : Env) :
    List WindowRec → List Ev → List Window × List Ev
  | [], _ => ([], [])
  | r :: rest, tr =>
    let res := Window.from_interface r session_name env tr
    let res2 := Window.from_interface_fold session_name env rest (tr ++ res.2)
    (res.1 :: res2.1, res.2 ++ res2.2)

/-- Rust `Window::all_in_session`. -/
def Window.all_in_session (session_name : String) (env : Env) (tr : List Ev) :
    List Window × List Ev :=
  let recs := env.windowsList tr session_name
  let res := Window.from_interface_fold session_name env recs
    (tr ++ [Ev.listWindows session_name])
  (res.1, Ev.listWindows session_name :: res.2)

/-- Rust `Session::target`. -/
def Session.target (s : Session) (window_name : String) (pane : Int) : String :=
  targetOf s.name window_name pane

/-- Rust `Session::remove_window`: kills the window addressed by `(session, name, 0)`. -/
def Session.remove_window (s : Session) (window_name : String) (env : Env)
    (tr : List Ev) : Except String Unit × List Ev :=
  let t := s.target window_name 0
  ((if env.killOk tr t then Except.ok () else Except.error "kill window failed"),
   [Ev.killWindow t])

/-- Rust `Session::from_interface`: the session name is sanitized at discovery. -/
def Session.from_interface (rec : SessionRec) (env : Env) (tr : List Ev) :
    Session × List Ev :=
  let name := clean_for_target rec.name
  let res := Window.all_in_session name env tr
  ({ windows := res.1, name := name }, res.2)

/-- Sequential effectful map underlying `Session::from_interface_list`. -/
def Session.from_interface_fold (env : Env) :
    List SessionRec → List Ev → List Session × List Ev
  | [], _ => ([], [])
  | r :: rest, tr =>
    let res := Session.from_interface r env tr
    let res2 := Session.from_interface_fold env rest (tr ++ res.2)
    (res.1 :: res2.1, res.2 ++ res2.2)

/-- Rust `Session::all_sessions`. -/
def Session.all_sessions (env : Env) (tr : List Ev) : List Session × List Ev :=
  let recs := env.sessionsList tr
  let res := Session.from_interface_fold env recs (tr ++ [Ev.listSessions])
  (res.1, Ev.listSessions :: res.2)

/-- Rust `Session::find_window`: first window whose stored name equals the raw
request-time name. -/
def Session.find_window (s : Session) (name : String) : Option Window :=
  s.windows.find? (fun w => w.name == name)

/-- Rust `Session::has_window`. -/
def Session.has_window (s : Session) (name : String) : Bool :=
  s.windows.any (fun w => w.name == name)

/-- Models writing an updated window back through the `&mut Window` reference
held inside the session (the window's name is unchanged by the mutations the
source performs through such a reference). -/
def Session.replace_window (s : Session) (w : Window) : Session :=
  { s with windows := s.windows.map (fun x => if x.name == w.name then w else x) }

/-- Rust `Session::create_window`: sanitizes the requested name, creates the window
detached, refreshes the window list, and looks the new window up by the
sanitized name. -/
def Session.create_window (s : Session) (window_name dir : String) (env : Env)
    (tr : List Ev) : (Session × Option Window) × List Ev :=
  let wname := clean_for_target window_name
  let ok := env.newWindowOk tr s.name wname dir
  if ok then
    let res := Window.all_in_session s.name env (tr ++ [Ev.newWindow s.name wname dir])
    let s1 := { s with windows := res.1 }
    ((s1, s1.find_window wname), Ev.newWindow s.name wname dir :: res.2)
  else
    ((s, none), [Ev.newWindow s.name wname dir])

/-- Rust `Session::setup_workspace`: if a window with the requested (raw) name
exists, return it immediately; otherwise create it, apply the layout, and
dispatch the initial commands. -/
def Session.setup_workspace (s : Session) (workspace : WorkSpace) (env : Env)
    (tr : List Ev) : (Session × Except String Window) × List Ev :=
  if s.has_window workspace.window_name then
    match s.find_window workspace.window_name with
    | some w => ((s, Except.ok w), [])
    | none => ((s, Except.error "window destroyed during operation"), [])
  else
    match s.create_window workspace.window_name workspace.dir env tr with
    | ((s1, none), ev1) => ((s1, Except.error "could not create window"), ev1)
    | ((s1, some w), ev1) =>
      match w.setup_layout workspace.layout workspace.dir env (tr ++ ev1) with
      | ((w2, Except.error e), ev2) => ((s1.replace_window w2, Except.error e), ev1 ++ ev2)
      | ((w2, Except.ok _), ev2) =>
        let res := w2.initial_command workspace.commands env (tr ++ ev1 ++ ev2)
        match res.1 with
        | Except.error e => ((s1.replace_window w2, Except.error e), ev1 ++ ev2 ++ res.2)
        | Except.ok _ => ((s1.replace_window w2, Except.ok w2), ev1 ++ ev2 ++ res.2)

/-- Rust `Tmux::new`. -/
def Tmux.new (env : Env) (tr : List Ev) : Tmux × List Ev :=
  let res := Session.all_sessions env tr
  ({ sessions := res.1 }, res.2)

/-- Rust `Tmux::find_session`: first session whose stored (sanitized at discovery)
name equals the raw request-time name. -/
def Tmux.find_session (t : Tmux) (name : String) : Option Session :=
  t.sessions.find? (fun s => s.name == name)

/-- Rust `Tmux::has_session`. -/
def Tmux.has_session (t : Tmux) (name : String) : Bool :=
  t.sessions.any (fun s => s.name == name)

/-- Models writing an updated session back through the `&mut Session`
reference held inside `Tmux` (the session's name is unchanged by the
mutations the source performs through such a reference). -/
def Tmux.replace_session (t : Tmux) (s : Session) : Tmux :=
  { sessions := t.sessions.map (fun x => if x.name == s.name then s else x) }

/-- Rust `Tmux::create_session`: create detached, refresh all sessions, look the
new session up by the raw requested name. -/
def Tmux.create_session (t : Tmux) (name : String) (env : Env) (tr : List Ev) :
    (Tmux × Option Session) × List Ev :=
  let ok := env.newSessionOk tr name
  if ok then
    let res := Session.all_sessions env (tr ++ [Ev.newSession name])
    let t1 : Tmux := { sessions := res.1 }
    ((t1, t1.find_session name), Ev.newSession name :: res.2)
  else
    ((t, none), [Ev.newSession name])

/-- Top-level `setup_workspace`: find-or-create the session (recording the
fresh session's first window as the placeholder to delete), provision the
window, attach, then remove the placeholder. -/
def setup_workspace (workspace : WorkSpace) (env : Env) (tr : List Ev) :
    Except String Tmux × List Ev :=
  let r0 := Tmux.new env tr
  let tmux := r0.1
  let ev0 := r0.2
  let step : Except String (Option String × Session × Tmux) × List Ev :=
    match tmux.find_session workspace.session_name with
    | some sess => (Except.ok (none, sess, tmux), [])
    | none =>
      match tmux.create_session workspace.session_name env (tr ++ ev0) with
      | ((_, none), ev1) => (Except.error "could not create session", ev1)
      | ((tmux2, some sess), ev1) =>
        match sess.windows.head? with
        | none => (Except.error "No first tmux window", ev1)
        | some w0 => (Except.ok (some w0.name, sess, tmux2), ev1)
  match step with
  | (Except.error e, ev1) => (Except.error e, ev0 ++ ev1)
  | (Except.ok (to_be_deleted, sess, tmux1), ev1) =>
    match sess.setup_workspace workspace env (tr ++ ev0 ++ ev1) with
    | ((_, Except.error e), ev2) => (Except.error e, ev0 ++ ev1 ++ ev2)
    | ((sess2, Except.ok win), ev2) =>
      let r3 := win.attach env (tr ++ ev0 ++ ev1 ++ ev2)
      match r3.1 with
      | Except.error e => (Except.error e, ev0 ++ ev1 ++ ev2 ++ r3.2)
      | Except.ok _ =>
        match to_be_deleted with
        | none => (Except.ok (tmux1.replace_session sess2), ev0 ++ ev1 ++ ev2 ++ r3.2)
        | some delete_name =>
          let r4 := sess2.remove_window delete_name env (tr ++ ev0 ++ ev1 ++ ev2 ++ r3.2)
          match r4.1 with
          | Except.error e => (Except.error e, ev0 ++ ev1 ++ ev2 ++ r3.2 ++ r4.2)
          | Except.ok _ =>
            (Except.ok (tmux1.replace_session sess2), ev0 ++ ev1 ++ ev2 ++ r3.2 ++ r4.2)

/-! ## Event classifiers and counters -/

/-- True exactly on split-pane invocations. -/
def isSplitEv : Ev → Bool
  | Ev.splitWindow _ _ => true
  | _ => false

/-- True exactly on kill-window invocations. -/
def isKillEv : Ev → Bool
  | Ev.killWindow _ => true
  | _ => false

/-- True exactly on send-keys invocations. -/
def isSendKeysEv : Ev → Bool
  | Ev.sendKeys _ _ => true
  | _ => false

/-- True exactly on new-window invocations. -/
def isNewWindowEv : Ev → Bool
  | Ev.newWindow _ _ _ => true
  | _ => false

/-- True exactly on new-session invocations. -/
def isNewSessionEv : Ev → Bool
  | Ev.newSession _ => true
  | _ => false

/-- True exactly on pane-listing invocations. -/
def isListPanesEv : Ev → Bool
  | Ev.listPanes _ => true
  | _ => false

/-- Number of split-pane invocations in a call trace. -/
def splitCount (evs : List Ev) : Nat := (evs.filter isSplitEv).length

/-! ## Concrete fixtures used by witnesses and counterexamples -/

/-- Oracle that grants every mutating call and reports a single pane 0
everywhere; it reports no sessions and no windows. -/
def envOk : Env where
  inTmux := false
  sessionsList := fun _ => []
  windowsList := fun _ _ => []
  panesList := fun _ _ => [⟨0⟩]
  newSessionOk := fun _ _ => true
  newWindowOk := fun _ _ _ _ => true
  splitOk := fun _ _ _ => true
  sendKeysOk := fun _ _ _ => true
  killOk := fun _ _ => true
  attachOk := fun _ _ => true
  switchOk := fun _ _ => true

/-- A window `main` of session `proj` holding exactly pane 0. -/
def wMainC : Window :=
  { panes := [⟨"proj", "main", 0⟩], session_name := "proj", number_of_panes := 1,
    name := "main" }

/-- A session `proj` that already holds the window `main`. -/
def sessMain : Session := { windows := [wMainC], name := "proj" }

/-- A request for window `main` of session `proj` with a three-pane layout. -/
def wsMain : WorkSpace :=
  { session_name := "proj", window_name := "main", dir := "/tmp",
    layout := { window_count := 3, layout_string := "D" }, commands := ["c0"] }

/-! ## Sanitization (claim C9) -/

theorem cleanChar_dash : cleanChar '-' = '-' := by decide

theorem cleanChar_eq_dash_or_self (c : Char) : cleanChar c = '-' ∨ cleanChar c = c := by
  unfold cleanChar
  split
  · exact Or.inl rfl
  · exact Or.inr rfl

theorem cleanChar_idem (c : Char) : cleanChar (cleanChar c) = cleanChar c := by
  rcases cleanChar_eq_dash_or_self c with h | h
  · rw [h, cleanChar_dash]
  · rw [h, h]

theorem map_cleanChar_idem (l : List Char) :
    (l.map cleanChar).map cleanChar = l.map cleanChar := by
  induction l with
  | nil => rfl
  | cons c t ih => simp [List.map_cons, cleanChar_idem, ih]

/-- C9: `clean_for_target` is idempotent; it maps each character through
`cleanChar`, which sends every `.` or whitespace character to `-` and leaves
every other character unchanged. -/
theorem C9_clean_for_target_idempotent (s : String) :
    clean_for_target (clean_for_target s) = clean_for_target s ∧
    (clean_for_target s).data = s.data.map cleanChar ∧
    ∀ c : Char, cleanChar c = if c = '.' ∨ isRegexWhitespace c = true then '-' else c := by
  refine ⟨?_, rfl, ?_⟩
  · show String.mk ((s.data.map cleanChar).map cleanChar) = String.mk (s.data.map cleanChar)
    rw [map_cleanChar_idem]
  · intro c
    unfold cleanChar
    by_cases h1 : c = '.'
    · simp [h1]
    · by_cases h2 : isRegexWhitespace c = true
      · simp [h1, h2]
      · simp [h1, h2]

/-! ## Attach branch (claim C8) -/

/-- C8: the attach operation issues exactly one call: a client switch to the
window's pane-0 target when the TMUX indicator is present, and a session
attach to the same target otherwise; its shape depends only on the
indicator. -/
theorem C8_attach_branch (w : Window) (env : Env) (tr : List Ev) :
    (w.attach env tr).2 =
      [if env.inTmux then Ev.switchClient (w.target 0) else Ev.attachSession (w.target 0)] := by
  unfold Window.attach in_tmux
  by_cases h : env.inTmux <;> simp [h]

/-! ## Frame conditions of pane refreshes (claim C10) -/

theorem reload_panes_preserves (w : Window) (env : Env) (tr : List Ev) :
    (w.reload_panes env tr).1.number_of_panes = w.number_of_panes ∧
    (w.reload_panes env tr).1.name = w.name ∧
    (w.reload_panes env tr).1.session_name = w.session_name :=
  ⟨rfl, rfl, rfl⟩

theorem split_window_preserves (w : Window) (dir : String) (env : Env) (tr : List Ev) :
    (w.split_window dir env tr).1.1.number_of_panes = w.number_of_panes ∧
    (w.split_window dir env tr).1.1.name = w.name ∧
    (w.split_window dir env tr).1.1.session_name = w.session_name :=
  ⟨rfl, rfl, rfl⟩

theorem split_loop_preserves (dir : String) (env : Env) :
    ∀ (n : Nat) (w : Window) (tr : List Ev),
      (Window.split_loop w dir env tr n).1.1.number_of_panes = w.number_of_panes ∧
      (Window.split_loop w dir env tr n).1.1.name = w.name ∧
      (Window.split_loop w dir env tr n).1.1.session_name = w.session_name := by
  intro n
  induction n with
  | zero => intro w tr; exact ⟨rfl, rfl, rfl⟩
  | succ n ih =>
    intro w tr
    have hp := split_window_preserves w dir env tr
    rcases hsp : w.split_window dir env tr with ⟨⟨w2, r⟩, ev1⟩
    rw [hsp] at hp
    cases r with
    | error e => simpa [Window.split_loop, hsp] using hp
    | ok u =>
      have := ih w2 (tr ++ ev1)
      simp only [Window.split_loop, hsp]
      exact ⟨this.1.trans hp.1, this.2.1.trans hp.2.1, this.2.2.trans hp.2.2⟩

theorem setup_layout_preserves (w : Window) (layout : Layout) (dir : String) (env : Env)
    (tr : List Ev) :
    (w.setup_layout layout dir env tr).1.1.number_of_panes = w.number_of_panes ∧
    (w.setup_layout layout dir env tr).1.1.name = w.name ∧
    (w.setup_layout layout dir env tr).1.1.session_name = w.session_name := by
  unfold Window.setup_layout
  have hl := split_loop_preserves dir env
    (if (w.reload_panes env tr).1.number_of_panes < layout.window_count
     then (layout.window_count - (w.reload_panes env tr).1.number_of_panes).toNat else 0)
    (w.reload_panes env tr).1 (tr ++ (w.reload_panes env tr).2)
  rcases hsp : Window.split_loop (w.reload_panes env tr).1 dir env
      (tr ++ (w.reload_panes env tr).2)
      (if (w.reload_panes env tr).1.number_of_panes < layout.window_count
       then (layout.window_count - (w.reload_panes env tr).1.number_of_panes).toNat else 0)
    with ⟨⟨w2, r⟩, ev1⟩
  rw [hsp] at hl
  cases r with
  | error e => simpa [hsp] using hl
  | ok u => simpa [hsp] using hl

/-- C10: every pane refresh (`reload_panes`, including the one inside
`split_window`) replaces only the `panes` field: `number_of_panes`, `name`
and `session_name` are unchanged, and `number_of_panes` keeps its
construction-time value even across a whole `setup_layout` run. -/
theorem C10_reload_panes_frame (w : Window) (env : Env) (tr : List Ev) (dir : String)
    (layout : Layout) :
    ((w.reload_panes env tr).1.number_of_panes = w.number_of_panes ∧
     (w.reload_panes env tr).1.name = w.name ∧
     (w.reload_panes env tr).1.session_name = w.session_name) ∧
    ((w.split_window dir env tr).1.1.number_of_panes = w.number_of_panes ∧
     (w.split_window dir env tr).1.1.name = w.name ∧
     (w.split_window dir env tr).1.1.session_name = w.session_name) ∧
    (w.setup_layout layout dir env tr).1.1.number_of_panes = w.number_of_panes :=
  ⟨reload_panes_preserves w env tr, split_window_preserves w dir env tr,
   (setup_layout_preserves w layout dir env tr).1⟩

/-! ## Trace of the pane-growth loop and of setup_layout (claims C4, C7) -/

theorem split_window_ok_eq (w : Window) (dir : String) (env : Env) (tr : List Ev)
    (hok : ∀ h t d, env.splitOk h t d = true) :
    w.split_window dir env tr =
      (((w.reload_panes env (tr ++ [Ev.splitWindow (w.target 0) dir])).1, Except.ok ()),
       [Ev.splitWindow (w.target 0) dir, Ev.listPanes (w.target 0)]) := by
  simp only [Window.split_window, hok]
  rfl

theorem split_loop_trace_ok (dir : String) (env : Env)
    (hok : ∀ h t d, env.splitOk h t d = true) :
    ∀ (n : Nat) (w : Window) (tr : List Ev),
      (Window.split_loop w dir env tr n).1.2 = Except.ok () ∧
      (Window.split_loop w dir env tr n).2 =
        List.flatten (List.replicate n
          [Ev.splitWindow (w.target 0) dir, Ev.listPanes (w.target 0)]) := by
  intro n
  induction n with
  | zero => intro w tr; exact ⟨rfl, rfl⟩
  | succ n ih =>
    intro w tr
    have hred := split_window_ok_eq w dir env tr hok
    have ihw := ih (w.reload_panes env (tr ++ [Ev.splitWindow (w.target 0) dir])).1
      (tr ++ [Ev.splitWindow (w.target 0) dir, Ev.listPanes (w.target 0)])
    constructor
    · simp only [Window.split_loop, hred]
      exact ihw.1
    · simp only [Window.split_loop, hred, List.replicate_succ, List.flatten_cons]
      rw [ihw.2]
      rfl

theorem setup_layout_trace (w : Window) (layout : Layout) (dir : String) (env : Env)
    (tr : List Ev) (hok : ∀ h t d, env.splitOk h t d = true) :
    (w.setup_layout layout dir env tr).2 =
      Ev.listPanes (w.target 0) ::
        (List.flatten (List.replicate (layout.window_count - w.number_of_panes).toNat
          [Ev.splitWindow (w.target 0) dir, Ev.listPanes (w.target 0)]) ++
         [Ev.listPanes (w.target 0),
          Ev.sendKeys (w.target 0)
            ["tmux select-layout -t " ++ w.target 0 ++ " \"" ++ layout.layout_string ++ "\"",
             "Enter"]]) := by
  have hn : (if (w.reload_panes env tr).1.number_of_panes < layout.window_count
      then (layout.window_count - (w.reload_panes env tr).1.number_of_panes).toNat else 0) =
      (layout.window_count - w.number_of_panes).toNat := by
    have hnp : (w.reload_panes env tr).1.number_of_panes = w.number_of_panes := rfl
    rw [hnp]
    by_cases h : w.number_of_panes < layout.window_count
    · rw [if_pos h]
    · rw [if_neg h]
      rw [Int.toNat_of_nonpos (sub_nonpos.mpr (not_lt.mp h))]
  have hloop := split_loop_trace_ok dir env hok
    ((layout.window_count - w.number_of_panes).toNat) (w.reload_panes env tr).1
    (tr ++ (w.reload_panes env tr).2)
  have hpres := split_loop_preserves dir env
    ((layout.window_count - w.number_of_panes).toNat) (w.reload_panes env tr).1
    (tr ++ (w.reload_panes env tr).2)
  rcases hsp : Window.split_loop (w.reload_panes env tr).1 dir env
      (tr ++ (w.reload_panes env tr).2)
      ((layout.window_count - w.number_of_panes).toNat)
    with ⟨⟨w2, r⟩, ev1⟩
  rw [hsp] at hloop hpres
  simp only at hloop hpres
  have hname : w2.name = w.name := hpres.2.1
  have hsess : w2.session_name = w.session_name := hpres.2.2
  cases r with
  | error e => exact absurd hloop.1 (by simp)
  | ok u =>
    simp only [Window.setup_layout, hn, hsp]
    rw [hloop.2]
    simp only [Window.reload_panes, Window.send_keys, Tmux.send_keys, Window.target, targetOf]
    rw [hname, hsess]
    simp

theorem splitCount_append (a b : List Ev) :
    splitCount (a ++ b) = splitCount a + splitCount b := by
  simp [splitCount, List.filter_append]

theorem splitCount_cons_of_not (e : Ev) (l : List Ev) (h : isSplitEv e = false) :
    splitCount (e :: l) = splitCount l := by
  simp [splitCount, List.filter_cons, h]

theorem splitCount_flatten_replicate (n : Nat) (t d : String) :
    splitCount (List.flatten (List.replicate n [Ev.splitWindow t d, Ev.listPanes t])) = n := by
  induction n with
  | zero => rfl
  | succ n ih =>
    rw [List.replicate_succ, List.flatten_cons, splitCount_append, ih]
    have hb : splitCount [Ev.splitWindow t d, Ev.listPanes t] = 1 := rfl
    omega

/-- C4, amended: `setup_layout` first refreshes the pane directory, then grows
the pane count by splitting (each split itself refreshing the pane directory),
strictly before any layout application; it then refreshes the pane directory
once more and only afterwards sends the layout-apply instruction, with the
descriptor embedded verbatim, as keystrokes into pane 0 followed by an Enter
keystroke.  The final pane refresh precedes the keystroke dispatch rather than
following it. -/
theorem C4_setup_layout_order (w : Window) (layout : Layout) (dir : String) (env : Env)
    (tr : List Ev) (hok : ∀ h t d, env.splitOk h t d = true) :
    (w.setup_layout layout dir env tr).2 =
      Ev.listPanes (w.target 0) ::
        (List.flatten (List.replicate (layout.window_count - w.number_of_panes).toNat
          [Ev.splitWindow (w.target 0) dir, Ev.listPanes (w.target 0)]) ++
         [Ev.listPanes (w.target 0),
          Ev.sendKeys (w.target 0)
            ["tmux select-layout -t " ++ w.target 0 ++ " \"" ++ layout.layout_string ++ "\"",
             "Enter"]]) :=
  setup_layout_trace w layout dir env tr hok

/-- Witness for C4: concrete run growing one pane to three, showing the exact
call order; the keystroke dispatch is the last call, after the final refresh. -/
theorem C4_setup_layout_order_witness :
    (wMainC.setup_layout { window_count := 3, layout_string := "D" } "/tmp" envOk []).2 =
      [Ev.listPanes "proj:main.0",
       Ev.splitWindow "proj:main.0" "/tmp", Ev.listPanes "proj:main.0",
       Ev.splitWindow "proj:main.0" "/tmp", Ev.listPanes "proj:main.0",
       Ev.listPanes "proj:main.0",
       Ev.sendKeys "proj:main.0" ["tmux select-layout -t proj:main.0 \"D\"", "Enter"]] :=
  (C4_setup_layout_order wMainC { window_count := 3, layout_string := "D" } "/tmp" envOk []
    (fun _ _ _ => rfl)).trans (by decide)

/-- Counterexample for C4 as stated: in a concrete run the keystroke dispatch
is the final call issued by `setup_layout` — the pane-directory refresh
happens before it, so no refresh follows the layout-apply keystrokes. -/
theorem C4_counterexample :
    (wMainC.setup_layout { window_count := 1, layout_string := "D" } "/tmp" envOk []).2 =
      [Ev.listPanes "proj:main.0", Ev.listPanes "proj:main.0",
       Ev.sendKeys "proj:main.0" ["tmux select-layout -t proj:main.0 \"D\"", "Enter"]] ∧
    ((wMainC.setup_layout { window_count := 1, layout_string := "D" } "/tmp" envOk []).2.getLast?).map
        isListPanesEv = some false := by
  constructor
  · decide
  · decide

/-- C7: with every split granted, the pane-growth step of `setup_layout`
performs exactly `(target - initial).toNat` splits — hence zero splits when
the initial count meets or exceeds the target, and never more than
`target - initial` — and the whole operation issues no pane- or
window-removing call. -/
theorem C7_pane_growth (w : Window) (layout : Layout) (dir : String) (env : Env)
    (tr : List Ev) (hok : ∀ h t d, env.splitOk h t d = true) :
    splitCount (w.setup_layout layout dir env tr).2 =
      (layout.window_count - w.number_of_panes).toNat ∧
    (layout.window_count ≤ w.number_of_panes →
      splitCount (w.setup_layout layout dir env tr).2 = 0) ∧
    ∀ e ∈ (w.setup_layout layout dir env tr).2, isKillEv e = false := by
  have ht := setup_layout_trace w layout dir env tr hok
  have h1 : splitCount (w.setup_layout layout dir env tr).2 =
      (layout.window_count - w.number_of_panes).toNat := by
    rw [ht, splitCount_cons_of_not (Ev.listPanes (w.target 0)) _ rfl, splitCount_append,
      splitCount_flatten_replicate]
    have hb : splitCount [Ev.listPanes (w.target 0),
        Ev.sendKeys (w.target 0)
          ["tmux select-layout -t " ++ w.target 0 ++ " \"" ++ layout.layout_string ++ "\"",
           "Enter"]] = 0 := rfl
    omega
  refine ⟨h1, ?_, ?_⟩
  · intro hle
    rw [h1, Int.toNat_of_nonpos (sub_nonpos.mpr hle)]
  · rw [ht]
    intro e he
    rcases List.mem_cons.mp he with rfl | he1
    · rfl
    rcases List.mem_append.mp he1 with he2 | he3
    · rcases List.mem_flatten.mp he2 with ⟨l, hl, hel⟩
      have hlb := (List.mem_replicate.mp hl).2
      subst hlb
      rcases List.mem_cons.mp hel with rfl | h
      · rfl
      rcases List.mem_cons.mp h with rfl | h2
      · rfl
      · exact absurd h2 (List.not_mem_nil e)
    · rcases List.mem_cons.mp he3 with rfl | h
      · rfl
      rcases List.mem_cons.mp h with rfl | h2
      · rfl
      · exact absurd h2 (List.not_mem_nil e)

/-- Witness for C7: growing a one-pane window to a three-pane layout performs
exactly two splits. -/
theorem C7_pane_growth_witness :
    splitCount (wMainC.setup_layout { window_count := 3, layout_string := "D" } "/tmp"
      envOk []).2 = 2 :=
  ((C7_pane_growth wMainC { window_count := 3, layout_string := "D" } "/tmp" envOk []
    (fun _ _ _ => rfl)).1).trans (by decide)

/-! ## Dispatch of initial commands (claim C6) -/

theorem get_pane_index (w : Window) (i : Int) (p : Pane) (h : w.get_pane i = some p) :
    p.index = i := by
  have := List.find?_some h
  exact eq_of_beq this

theorem initial_command_go_trace (w : Window) (env : Env)
    (hok : ∀ h t ks, env.sendKeysOk h t ks = true) :
    ∀ (cmds : List String) (start : Nat) (tr : List Ev),
      (Window.initial_command_go w env cmds start tr).1 = Except.ok () ∧
      (Window.initial_command_go w env cmds start tr).2 =
        ((List.range' start cmds.length).zip cmds).filterMap (fun ic =>
          (w.get_pane (Int.ofNat ic.1)).map (fun p =>
            Ev.sendKeys (target p.session_name p.window_name p.index) [ic.2, "Enter"])) := by
  intro cmds
  induction cmds with
  | nil => intro start tr; exact ⟨rfl, rfl⟩
  | cons c rest ih =>
    intro start tr
    rw [List.length_cons, List.range'_succ]
    cases hgp : w.get_pane (Int.ofNat start) with
    | none =>
      have ihs := ih (start + 1) tr
      constructor
      · simp only [Window.initial_command_go, hgp]
        exact ihs.1
      · simp only [Window.initial_command_go, hgp, List.zip_cons_cons, List.filterMap_cons,
          hgp, Option.map_none']
        exact ihs.2
    | some p =>
      have hsend : p.send_keys [c, "Enter"] env tr =
          (Except.ok (),
           [Ev.sendKeys (target p.session_name p.window_name p.index) [c, "Enter"]]) := by
        simp only [Pane.send_keys, Tmux.send_keys, hok]
        rfl
      have ihs := ih (start + 1)
        (tr ++ [Ev.sendKeys (target p.session_name p.window_name p.index) [c, "Enter"]])
      constructor
      · simp only [Window.initial_command_go, hgp, hsend]
        exact ihs.1
      · simp only [Window.initial_command_go, hgp, hsend, List.zip_cons_cons,
          List.filterMap_cons, Option.map_some']
        rw [ihs.2]
        rfl

/-- C6: with every keystroke dispatch granted, `initial_command` returns
success and issues exactly one send-keys call per command index at which a
pane with that reported index exists — the call carries the command followed
by Enter and is addressed at that pane's own index; indices with no matching
pane produce no call at all, and the pane found for index `i` really has
reported index `i`. -/
theorem C6_initial_command_dispatch (w : Window) (cmds : List String) (env : Env)
    (tr : List Ev) (hok : ∀ h t ks, env.sendKeysOk h t ks = true) :
    (w.initial_command cmds env tr).1 = Except.ok () ∧
    (w.initial_command cmds env tr).2 =
      ((List.range cmds.length).zip cmds).filterMap (fun ic =>
        (w.get_pane (Int.ofNat ic.1)).map (fun p =>
          Ev.sendKeys (target p.session_name p.window_name p.index) [ic.2, "Enter"])) ∧
    ∀ (i : Int) (p : Pane), w.get_pane i = some p → p.index = i := by
  have h := initial_command_go_trace w env hok cmds 0 tr
  refine ⟨h.1, ?_, fun i p hp => get_pane_index w i p hp⟩
  rw [List.range_eq_range']
  exact h.2

/-- A window of session `proj` holding panes with reported indices 0 and 2
only (no pane 1). -/
def wPanes02 : Window :=
  { panes := [⟨"proj", "main", 0⟩, ⟨"proj", "main", 2⟩], session_name := "proj",
    number_of_panes := 2, name := "main" }

/-- Witness for C6: with commands for indices 0, 1, 2 but no pane 1, exactly
the calls for panes 0 and 2 are issued and the run still succeeds. -/
theorem C6_initial_command_dispatch_witness :
    (wPanes02.initial_command ["c0", "c1", "c2"] envOk []).1 = Except.ok () ∧
    (wPanes02.initial_command ["c0", "c1", "c2"] envOk []).2 =
      [Ev.sendKeys "proj:main.0" ["c0", "Enter"],
       Ev.sendKeys "proj:main.2" ["c2", "Enter"]] :=
  ⟨(C6_initial_command_dispatch wPanes02 ["c0", "c1", "c2"] envOk []
      (fun _ _ _ => rfl)).1,
   ((C6_initial_command_dispatch wPanes02 ["c0", "c1", "c2"] envOk []
      (fun _ _ _ => rfl)).2.1).trans (by decide)⟩

/-! ## Window reuse in Session::setup_workspace (claim C1) -/

theorem find?_window_of_any (name : String) :
    ∀ l : List Window, (l.any fun w => w.name == name) = true →
      ∃ w, l.find? (fun w => w.name == name) = some w := by
  intro l
  induction l with
  | nil => intro h; simp at h
  | cons w t ih =>
    intro h
    by_cases hw : (w.name == name) = true
    · exact ⟨w, by simp [List.find?_cons, hw]⟩
    · rw [List.any_cons] at h
      simp only [hw, Bool.false_or] at h
      obtain ⟨w2, hw2⟩ := ih h
      exact ⟨w2, by simp [List.find?_cons, hw, hw2]⟩

theorem find_window_of_has_window (s : Session) (name : String)
    (h : s.has_window name = true) : ∃ w, s.find_window name = some w :=
  find?_window_of_any name s.windows h

/-- C1, amended: when the session already contains a window whose stored name
equals the requested window name, `Session::setup_workspace` issues no
external call at all — no new session or window is created, but
`setup_layout` and `initial_command` are also skipped — and it returns the
existing window with the session unchanged. -/
theorem C1_window_reuse (s : Session) (ws : WorkSpace) (env : Env) (tr : List Ev)
    (h : s.has_window ws.window_name = true) :
    (s.setup_workspace ws env tr).2 = [] ∧
    (s.setup_workspace ws env tr).1.1 = s ∧
    ∃ w, s.find_window ws.window_name = some w ∧
      (s.setup_workspace ws env tr).1.2 = Except.ok w := by
  obtain ⟨w, hw⟩ := find_window_of_has_window s ws.window_name h
  unfold Session.setup_workspace
  rw [if_pos h, hw]
  exact ⟨rfl, rfl, w, rfl, rfl⟩

/-- Witness for C1 (amended): a session already holding `main` handles a
request for `main` without issuing any external call and without changing. -/
theorem C1_window_reuse_witness :
    (sessMain.setup_workspace wsMain envOk []).2 = [] ∧
    (sessMain.setup_workspace wsMain envOk []).1.1 = sessMain :=
  ⟨(C1_window_reuse sessMain wsMain envOk [] (by decide)).1,
   (C1_window_reuse sessMain wsMain envOk [] (by decide)).2.1⟩

/-- Counterexample for C1 as stated: on reuse the call trace is empty, so in
particular no layout-apply keystrokes and no initial-command keystrokes are
dispatched — layout application and command dispatch ARE skipped. -/
theorem C1_counterexample :
    sessMain.has_window wsMain.window_name = true ∧
    (sessMain.setup_workspace wsMain envOk []).2 = [] ∧
    (sessMain.setup_workspace wsMain envOk []).2.any isSendKeysEv = false := by
  refine ⟨by decide, by decide, by decide⟩

/-! ## Sanitization at discovery versus lookup (claim C2) -/

/-- C2, amended: sanitization is applied when building target strings (both
components), when discovering session names (`Session::from_interface`), and
to the requested name inside `create_window` (whose new-window call carries
the sanitized name); but `Window::from_interface` stores the discovered
window name unsanitized, and `Tmux::find_session` compares stored names
against the raw request-time name, so a request name that is not already in
sanitized form never matches any sanitized stored session name — name
comparisons are not performed on identically sanitized forms. -/
theorem C2_sanitization_asymmetry :
    (∀ (w : Window) (p : Int),
      w.target p =
        clean_for_target w.session_name ++ ":" ++ clean_for_target w.name ++ "." ++
          toString p) ∧
    (∀ (rec : SessionRec) (env : Env) (tr : List Ev),
      (Session.from_interface rec env tr).1.name = clean_for_target rec.name) ∧
    (∀ (wrec : WindowRec) (sn : String) (env : Env) (tr : List Ev),
      (Window.from_interface wrec sn env tr).1.name = wrec.name) ∧
    (∀ (s : Session) (wn dir : String) (env : Env) (tr : List Ev),
      (s.create_window wn dir env tr).2.head? =
        some (Ev.newWindow s.name (clean_for_target wn) dir)) ∧
    (∀ (t : Tmux) (name : String),
      (∀ s ∈ t.sessions, s.name = clean_for_target s.name) →
      name ≠ clean_for_target name → t.find_session name = none) := by
  refine ⟨fun w p => rfl, fun rec env tr => rfl, fun wrec sn env tr => rfl, ?_, ?_⟩
  · intro s wn dir env tr
    simp only [Session.create_window]
    split <;> rfl
  · intro t name hall hne
    unfold Tmux.find_session
    rw [List.find?_eq_none]
    intro s hs hbeq
    have hsn : s.name = name := eq_of_beq hbeq
    apply hne
    calc name = s.name := hsn.symm
      _ = clean_for_target s.name := hall s hs
      _ = clean_for_target name := by rw [hsn]

/-- A multiplexer snapshot holding one discovered session whose sanitized
stored name is `a-b`. -/
def tmuxAB : Tmux := { sessions := [{ windows := [], name := "a-b" }] }

/-- Witness for C2 (amended): the raw request name `a.b` matches no stored
session even though its sanitized form `a-b` is present. -/
theorem C2_sanitization_asymmetry_witness : tmuxAB.find_session "a.b" = none :=
  C2_sanitization_asymmetry.2.2.2.2 tmuxAB "a.b" (by decide) (by decide)

/-- Counterexample for C2 as stated: a window discovered under the raw name
`coc.nvim` is stored under that raw name, not under the sanitized `coc-nvim`,
and a lookup for the sanitized name fails to find it. -/
theorem C2_counterexample :
    (Window.from_interface ⟨"coc.nvim", 1⟩ "proj" envOk []).1.name = "coc.nvim" ∧
    clean_for_target "coc.nvim" = "coc-nvim" ∧
    ("coc.nvim" : String) ≠ "coc-nvim" ∧
    Session.has_window
      { windows := [(Window.from_interface ⟨"coc.nvim", 1⟩ "proj" envOk []).1],
        name := "proj" } "coc-nvim" = false := by
  refine ⟨by decide, by decide, by decide, by decide⟩

/-! ## Top-level provisioning runs (claims C3, C5) -/

/-- Oracle for a fresh-session run: no session exists until `new-session` is
issued, after which session `proj` is discovered with default window `shell`;
once `new-window` is issued the window list also contains `main`.  The
placeholder kill is granted exactly when `b` is true. -/
def envFresh (b : Bool) : Env where
  inTmux := false
  sessionsList := fun tr => if tr.any isNewSessionEv then [⟨"proj"⟩] else []
  windowsList := fun tr _ =>
    if tr.any isNewWindowEv then [⟨"shell", 1⟩, ⟨"main", 1⟩] else [⟨"shell", 1⟩]
  panesList := fun _ _ => [⟨0⟩]
  newSessionOk := fun _ _ => true
  newWindowOk := fun _ _ _ _ => true
  splitOk := fun _ _ _ => true
  sendKeysOk := fun _ _ _ => true
  killOk := fun _ _ => b
  attachOk := fun _ _ => true
  switchOk := fun _ _ => true

/-- Oracle for a fresh-session run whose default window is already named
`main` — the very name the request asks for. -/
def envReuseDefault : Env where
  inTmux := false
  sessionsList := fun tr => if tr.any isNewSessionEv then [⟨"proj"⟩] else []
  windowsList := fun _ _ => [⟨"main", 1⟩]
  panesList := fun _ _ => [⟨0⟩]
  newSessionOk := fun _ _ => true
  newWindowOk := fun _ _ _ _ => true
  splitOk := fun _ _ _ => true
  sendKeysOk := fun _ _ _ => true
  killOk := fun _ _ => true
  attachOk := fun _ _ => true
  switchOk := fun _ _ => true

/-- A request for a one-pane window `main` in session `proj` with no initial
commands. -/
def ws1 : WorkSpace :=
  { session_name := "proj", window_name := "main", dir := "/tmp",
    layout := { window_count := 1, layout_string := "D" }, commands := [] }

/-- The full call trace of a fresh-session provisioning run under `envFresh`:
discovery, session creation, rediscovery, window creation, layout
application, attach, and finally the placeholder kill. -/
def freshTrace : List Ev :=
  [Ev.listSessions,
   Ev.newSession "proj",
   Ev.listSessions,
   Ev.listWindows "proj",
   Ev.listPanes "shell",
   Ev.newWindow "proj" "main" "/tmp",
   Ev.listWindows "proj",
   Ev.listPanes "shell",
   Ev.listPanes "main",
   Ev.listPanes "proj:main.0",
   Ev.listPanes "proj:main.0",
   Ev.sendKeys "proj:main.0" ["tmux select-layout -t proj:main.0 \"D\"", "Enter"],
   Ev.attachSession "proj:main.0",
   Ev.killWindow "proj:shell.0"]

/-- C3, amended: when the placeholder-window removal fails after a successful
attach, the top-level `setup_workspace` returns that error — the cleanup
failure propagates and the run's result is failure, even though the attach
call (and everything before it) was already issued; with the removal granted
the identical trace ends in overall success. -/
theorem C3_cleanup_failure_propagates :
    (setup_workspace ws1 (envFresh false) []).1 = Except.error "kill window failed" ∧
    (∃ t, (setup_workspace ws1 (envFresh true) []).1 = Except.ok t) ∧
    (setup_workspace ws1 (envFresh false) []).2 = (setup_workspace ws1 (envFresh true) []).2 ∧
    (setup_workspace ws1 (envFresh false) []).2 = freshTrace := by
  exact ⟨rfl, ⟨_, rfl⟩, rfl, rfl⟩

/-- Counterexample for C3 as stated: in a concrete fresh-session run where
attach succeeds and only the placeholder removal fails, the run's result is
an error, not success. -/
theorem C3_counterexample :
    (setup_workspace ws1 (envFresh false) []).1 = Except.error "kill window failed" ∧
    Ev.attachSession "proj:main.0" ∈ (setup_workspace ws1 (envFresh false) []).2 := by
  refine ⟨rfl, by decide⟩

/-- C5, amended: when the fresh session's default window name differs from
the requested window name, the placeholder kill targets that other window
(`proj:shell.0`, not the attached `proj:main.0`); but when the default window
carries the requested name, no window is created — the default window itself
is returned as the workspace window — and the placeholder removal then
targets exactly the window that was attached. -/
theorem C5_placeholder_collision :
    ((setup_workspace ws1 (envFresh true) []).2 = freshTrace ∧
     Ev.killWindow "proj:shell.0" ∈ (setup_workspace ws1 (envFresh true) []).2 ∧
     Ev.newWindow "proj" "main" "/tmp" ∈ (setup_workspace ws1 (envFresh true) []).2 ∧
     ("proj:shell.0" : String) ≠ "proj:main.0") ∧
    ((setup_workspace ws1 envReuseDefault []).2 =
      [Ev.listSessions,
       Ev.newSession "proj",
       Ev.listSessions,
       Ev.listWindows "proj",
       Ev.listPanes "main",
       Ev.attachSession "proj:main.0",
       Ev.killWindow "proj:main.0"] ∧
     (setup_workspace ws1 envReuseDefault []).2.any isNewWindowEv = false) := by
  exact ⟨⟨rfl, by decide, by decide, by decide⟩, ⟨rfl, by decide⟩⟩

/-- Counterexample for C5 as stated: when the requested window name equals
the fresh session's default window name, no window is created, the attach
targets `proj:main.0`, and the placeholder kill targets the very same
`proj:main.0` — removing the placeholder addresses the window that was just
provisioned. -/
theorem C5_counterexample :
    Ev.attachSession "proj:main.0" ∈ (setup_workspace ws1 envReuseDefault []).2 ∧
    Ev.killWindow "proj:main.0" ∈ (setup_workspace ws1 envReuseDefault []).2 ∧
    (setup_workspace ws1 envReuseDefault []).2.any isNewWindowEv = false := by
  refine ⟨by decide, by decide, by decide⟩
